import Mathlib

/-!
Verification of the telemetry backend (`src/main.py`).

The file embeds the sample generator `generate_sample` and the WebSocket
connection handler `websocket_telemetry` from `src/main.py` and proves the
specification claims about them.

Conventions of the embedding:
* Python floats are modelled as real numbers (`ℝ`).
* Python `int(x)` truncates a float toward zero; it is modelled by `pyInt`.
* `random.random()` draws are modelled by a stream `draws : ℕ → ℝ`, consumed
  in the order the source consumes them: draw 0 for `heart_rate`, draw 1 for
  `oxygen`, draw 2 for `lactate`, and draws `3+i` for `emg` channel `i`
  (`i = 0, …, 7`).
-/

namespace Backend

/-- Python `int(x)` on a float: truncation toward zero
(floor for nonnegative arguments, ceiling for negative ones). -/
noncomputable def pyInt (x : ℝ) : ℤ := if 0 ≤ x then ⌊x⌋ else ⌈x⌉

/-- The `motion` record of a sample (src/main.py lines 77-81). -/
structure Motion where
  x : ℝ
  y : ℝ
  z : ℝ

/-- The `eeg` record of a sample (src/main.py lines 83-89). -/
structure Eeg where
  alpha : ℝ
  beta : ℝ
  gamma : ℝ
  theta : ℝ
  delta : ℝ

/-- The telemetry record returned by `generate_sample`
(src/main.py lines 90-98). -/
structure TelemetrySample where
  timestamp : ℤ
  heartRate : ℤ
  oxygenSaturation : ℤ
  lactateThreshold : ℝ
  motion : Motion
  emg : List ℝ
  eeg : Eeg

/-- `generate_sample(ts)` from src/main.py lines 71-98, with the random
source made explicit as the stream `draws`.  Every arithmetic expression is
transcribed from the source; in particular the source uses Python `int(...)`
(truncation), not rounding. -/
noncomputable def generate_sample (ts : ℝ) (draws : ℕ → ℝ) : TelemetrySample :=
  { timestamp := pyInt (ts * 1000)
    heartRate := 55 + pyInt (25 * Real.sin (ts / 0.5)) + pyInt (draws 0 * 5)
    oxygenSaturation := 96 + pyInt (draws 1 * 3)
    lactateThreshold := 3.8 + draws 2 * 0.6
    motion :=
      { x := Real.sin (ts / 0.4) * 0.5
        y := Real.cos (ts / 0.5) * 0.5
        z := Real.sin (ts / 0.7) * 0.5 }
    emg := List.ofFn fun i : Fin 8 =>
      0.5 * Real.sin (ts / (0.08 + (i : ℝ) * 0.01)) + (draws (3 + i) - 0.5) * 0.2
    eeg :=
      { alpha := |Real.sin (ts / 0.9)|
        beta := |Real.sin (ts / 0.7)|
        gamma := |Real.sin (ts / 0.5)|
        theta := |Real.sin (ts / 1.2)|
        delta := |Real.sin (ts / 1.5)| } }

/-- `pyInt` is floor on nonnegative arguments. -/
theorem pyInt_of_nonneg {x : ℝ} (h : 0 ≤ x) : pyInt x = ⌊x⌋ := if_pos h

/-- `pyInt` of a nonnegative real is nonnegative. -/
theorem pyInt_nonneg {x : ℝ} (h : 0 ≤ x) : 0 ≤ pyInt x := by
  rw [pyInt_of_nonneg h]
  exact Int.floor_nonneg.mpr h

/-- `pyInt` of a nonnegative real below an integer bound stays below it. -/
theorem pyInt_lt {x : ℝ} {n : ℤ} (h0 : 0 ≤ x) (h : x < n) : pyInt x < n := by
  rw [pyInt_of_nonneg h0]
  exact Int.floor_lt.mpr h

/-- Truncation toward zero never increases past an integer upper bound. -/
theorem pyInt_le {x : ℝ} {n : ℤ} (h : x ≤ n) : pyInt x ≤ n := by
  unfold pyInt
  by_cases h0 : 0 ≤ x
  · rw [if_pos h0]
    have hx : (⌊x⌋ : ℝ) ≤ n := le_trans (Int.floor_le x) h
    exact_mod_cast hx
  · rw [if_neg h0]
    exact Int.ceil_le.mpr h

/-- Truncation toward zero never drops past an integer lower bound. -/
theorem le_pyInt {x : ℝ} {n : ℤ} (h : (n : ℝ) ≤ x) : n ≤ pyInt x := by
  unfold pyInt
  by_cases h0 : 0 ≤ x
  · rw [if_pos h0]
    exact Int.le_floor.mpr h
  · rw [if_neg h0]
    have hx : (n : ℝ) ≤ ⌈x⌉ := le_trans h (Int.le_ceil x)
    exact_mod_cast hx

/-- The heart-rate formula exactly as the spec writes it (§4.1):
`55 + round(25 * sin(ts / 0.5)) + round(random() * 5)`. -/
noncomputable def heartRate_specFormula (ts r : ℝ) : ℤ :=
  55 + round (25 * Real.sin (ts / 0.5)) + round (r * 5)

/-- The oxygen-saturation formula exactly as the spec writes it (§4.1):
`96 + round(random() * 3)`. -/
noncomputable def oxygenSaturation_specFormula (r : ℝ) : ℤ :=
  96 + round (r * 3)

/-- The timestamp formula exactly as the spec writes it (§4.1):
`round(ts * 1000)`. -/
noncomputable def timestamp_specFormula (ts : ℝ) : ℤ :=
  round (ts * 1000)

/-- Claim C2: for `ts = 0` with a random source that always returns `0`, the
generated sample has `timestamp = 0`, `heartRate = 55`,
`oxygenSaturation = 96`, `lactateThreshold = 3.8`, `motion = {x:0, y:0.5, z:0}`,
`emg[0] = -0.1`, and all five `eeg` bands equal to `0`. -/
theorem claim_C2_schema_scenario :
    (generate_sample 0 fun _ => 0).timestamp = 0 ∧
    (generate_sample 0 fun _ => 0).heartRate = 55 ∧
    (generate_sample 0 fun _ => 0).oxygenSaturation = 96 ∧
    (generate_sample 0 fun _ => 0).lactateThreshold = 3.8 ∧
    (generate_sample 0 fun _ => 0).motion = ⟨0, 0.5, 0⟩ ∧
    (generate_sample 0 fun _ => 0).emg[0]? = some ((-0.1 : ℝ)) ∧
    (generate_sample 0 fun _ => 0).eeg = ⟨0, 0, 0, 0, 0⟩ := by
  refine ⟨?_, ?_, ?_, ?_, ?_, ?_, ?_⟩
  all_goals
    simp [generate_sample, pyInt, Motion.mk.injEq, Eeg.mk.injEq,
      List.getElem?_ofFn, List.ofFnNthVal, Real.sin_zero, Real.cos_zero]
  all_goals norm_num

/-- Unfolding lemma for the `heartRate` field. -/
theorem heartRate_def (ts : ℝ) (draws : ℕ → ℝ) :
    (generate_sample ts draws).heartRate
      = 55 + pyInt (25 * Real.sin (ts / 0.5)) + pyInt (draws 0 * 5) := rfl

/-- Unfolding lemma for the `oxygenSaturation` field. -/
theorem oxygenSaturation_def (ts : ℝ) (draws : ℕ → ℝ) :
    (generate_sample ts draws).oxygenSaturation = 96 + pyInt (draws 1 * 3) := rfl

/-- Unfolding lemma for the `timestamp` field. -/
theorem timestamp_def (ts : ℝ) (draws : ℕ → ℝ) :
    (generate_sample ts draws).timestamp = pyInt (ts * 1000) := rfl

/-- Unfolding lemma for the `emg` field. -/
theorem emg_def (ts : ℝ) (draws : ℕ → ℝ) :
    (generate_sample ts draws).emg
      = List.ofFn (fun i : Fin 8 =>
          0.5 * Real.sin (ts / (0.08 + (i : ℝ) * 0.01)) + (draws (3 + i) - 0.5) * 0.2) := rfl

/-- Claim C1, counterexample: at `ts = 0` with every draw equal to `0.75`,
the code computes `55 + int(3.75) = 58` while the claimed formula
`55 + round(25*sin(0)) + round(3.75)` gives `59`. -/
theorem claim_C1_counterexample :
    (generate_sample 0 fun _ => 0.75).heartRate ≠ heartRate_specFormula 0 0.75 := by
  have hl : (generate_sample 0 fun _ => 0.75).heartRate = 58 := by
    rw [heartRate_def]
    simp [pyInt]
    norm_num
  have hr : heartRate_specFormula 0 0.75 = 59 := by
    rw [heartRate_specFormula]
    simp [Real.sin_zero]
    rw [round_eq]
    norm_num
  rw [hl, hr]
  decide

/-- Claim C1, amended: `heartRate = 55 + trunc(25*sin(ts/0.5)) + trunc(r*5)`
where `trunc` is Python `int` (truncation toward zero), and for a draw
`r ∈ [0,1)` the jitter term ranges over `0..4`, not `0..5`. -/
theorem claim_C1_amended (ts : ℝ) (draws : ℕ → ℝ)
    (h0 : 0 ≤ draws 0) (h1 : draws 0 < 1) :
    (generate_sample ts draws).heartRate
      = 55 + pyInt (25 * Real.sin (ts / 0.5)) + pyInt (draws 0 * 5) ∧
    0 ≤ pyInt (draws 0 * 5) ∧ pyInt (draws 0 * 5) ≤ 4 := by
  refine ⟨heartRate_def ts draws, pyInt_nonneg (by positivity), ?_⟩
  have h5 : pyInt (draws 0 * 5) < (5 : ℤ) :=
    pyInt_lt (by positivity) (by push_cast; linarith)
  omega

/-- Witness for the amended claim C1 at `ts = 0`, all draws `0`. -/
theorem claim_C1_amended_witness :
    (generate_sample 0 fun _ => 0).heartRate
      = 55 + pyInt (25 * Real.sin ((0 : ℝ) / 0.5)) + pyInt ((0 : ℝ) * 5) ∧
    0 ≤ pyInt ((0 : ℝ) * 5) ∧ pyInt ((0 : ℝ) * 5) ≤ 4 :=
  claim_C1_amended 0 (fun _ => 0) le_rfl (by norm_num)

/-- Claim C4, counterexample: at `ts = 0.0007` the code computes
`int(0.7) = 0` while the claimed formula `round(0.7)` gives `1`. -/
theorem claim_C4_counterexample :
    (generate_sample 0.0007 fun _ => 0).timestamp ≠ timestamp_specFormula 0.0007 := by
  have hl : (generate_sample 0.0007 fun _ => 0).timestamp = 0 := by
    rw [timestamp_def]
    simp [pyInt]
    norm_num
  have hr : timestamp_specFormula 0.0007 = 1 := by
    rw [timestamp_specFormula, round_eq]
    norm_num
  rw [hl, hr]
  decide

/-- Claim C4, amended: `timestamp = trunc(ts * 1000)` with truncation toward
zero; for the nonnegative timestamps the handler produces this equals
`⌊ts * 1000⌋`, not `round(ts * 1000)`. -/
theorem claim_C4_amended (ts : ℝ) (draws : ℕ → ℝ) (h : 0 ≤ ts) :
    (generate_sample ts draws).timestamp = ⌊ts * 1000⌋ := by
  rw [timestamp_def]
  exact pyInt_of_nonneg (by positivity)

/-- Witness for the amended claim C4 at `ts = 0`. -/
theorem claim_C4_amended_witness :
    (generate_sample 0 fun _ => 0).timestamp = ⌊(0 : ℝ) * 1000⌋ :=
  claim_C4_amended 0 (fun _ => 0) le_rfl

/-- Claim C5, counterexample: at draw `0.9` the code computes
`96 + int(2.7) = 98` while the claimed formula `96 + round(2.7)` gives `99`. -/
theorem claim_C5_counterexample :
    (generate_sample 0 fun _ => 0.9).oxygenSaturation
      ≠ oxygenSaturation_specFormula 0.9 := by
  have hl : (generate_sample 0 fun _ => 0.9).oxygenSaturation = 98 := by
    rw [oxygenSaturation_def]
    simp [pyInt]
    norm_num
  have hr : oxygenSaturation_specFormula 0.9 = 99 := by
    rw [oxygenSaturation_specFormula, round_eq]
    norm_num
  rw [hl, hr]
  decide

/-- Claim C5, amended: `oxygenSaturation = 96 + trunc(r * 3)` (truncation
toward zero, not rounding), hence it lies in `[96, 98]`; `99` is never
attained for a draw in `[0,1)`. -/
theorem claim_C5_amended (ts : ℝ) (draws : ℕ → ℝ)
    (h0 : 0 ≤ draws 1) (h1 : draws 1 < 1) :
    (generate_sample ts draws).oxygenSaturation = 96 + pyInt (draws 1 * 3) ∧
    96 ≤ (generate_sample ts draws).oxygenSaturation ∧
    (generate_sample ts draws).oxygenSaturation ≤ 98 := by
  refine ⟨oxygenSaturation_def ts draws, ?_, ?_⟩ <;> rw [oxygenSaturation_def]
  · have := pyInt_nonneg (show (0:ℝ) ≤ draws 1 * 3 by positivity)
    omega
  · have h3 : pyInt (draws 1 * 3) < (3 : ℤ) :=
      pyInt_lt (by positivity) (by push_cast; linarith)
    omega

/-- Witness for the amended claim C5 at `ts = 0`, all draws `0`. -/
theorem claim_C5_amended_witness :
    (generate_sample 0 fun _ => 0).oxygenSaturation = 96 + pyInt ((0 : ℝ) * 3) ∧
    96 ≤ (generate_sample 0 fun _ => 0).oxygenSaturation ∧
    (generate_sample 0 fun _ => 0).oxygenSaturation ≤ 98 :=
  claim_C5_amended 0 (fun _ => 0) le_rfl (by norm_num)

/-- Claim C6: the generator is deterministic — two calls with the same
timestamp and the same values for the (at most 11) random draws it consumes
return identical samples in every field. -/
theorem claim_C6_determinism (ts₁ ts₂ : ℝ) (d₁ d₂ : ℕ → ℝ)
    (hts : ts₁ = ts₂) (hd : ∀ i, i < 11 → d₁ i = d₂ i) :
    generate_sample ts₁ d₁ = generate_sample ts₂ d₂ := by
  subst hts
  have h0 : d₁ 0 = d₂ 0 := hd 0 (by norm_num)
  have h1 : d₁ 1 = d₂ 1 := hd 1 (by norm_num)
  have h2 : d₁ 2 = d₂ 2 := hd 2 (by norm_num)
  have hemg : ∀ i : Fin 8, d₁ (3 + (i : ℕ)) = d₂ (3 + (i : ℕ)) := by
    intro i
    have hi := i.isLt
    exact hd (3 + (i : ℕ)) (by omega)
  unfold generate_sample
  rw [h0, h1, h2]
  congr 1
  exact congrArg List.ofFn (funext fun i => by rw [hemg i])

/-- Witness for claim C6 at `ts = 0`, all draws `0`. -/
theorem claim_C6_determinism_witness :
    generate_sample 0 (fun _ => (0 : ℝ)) = generate_sample 0 (fun _ => (0 : ℝ)) :=
  claim_C6_determinism 0 0 (fun _ => 0) (fun _ => 0) rfl (fun _ _ => rfl)

/-- Claim C7: each eeg band equals `abs(sin(ts / period))` with periods
alpha `0.9`, beta `0.7`, gamma `0.5`, theta `1.2`, delta `1.5`, and every
band value lies in `[0, 1]`. -/
theorem claim_C7_eeg (ts : ℝ) (draws : ℕ → ℝ) :
    ((generate_sample ts draws).eeg.alpha = |Real.sin (ts / 0.9)| ∧
     (generate_sample ts draws).eeg.beta = |Real.sin (ts / 0.7)| ∧
     (generate_sample ts draws).eeg.gamma = |Real.sin (ts / 0.5)| ∧
     (generate_sample ts draws).eeg.theta = |Real.sin (ts / 1.2)| ∧
     (generate_sample ts draws).eeg.delta = |Real.sin (ts / 1.5)|) ∧
    (0 ≤ (generate_sample ts draws).eeg.alpha ∧ (generate_sample ts draws).eeg.alpha ≤ 1) ∧
    (0 ≤ (generate_sample ts draws).eeg.beta ∧ (generate_sample ts draws).eeg.beta ≤ 1) ∧
    (0 ≤ (generate_sample ts draws).eeg.gamma ∧ (generate_sample ts draws).eeg.gamma ≤ 1) ∧
    (0 ≤ (generate_sample ts draws).eeg.theta ∧ (generate_sample ts draws).eeg.theta ≤ 1) ∧
    (0 ≤ (generate_sample ts draws).eeg.delta ∧ (generate_sample ts draws).eeg.delta ≤ 1) :=
  ⟨⟨rfl, rfl, rfl, rfl, rfl⟩,
   ⟨abs_nonneg _, Real.abs_sin_le_one _⟩,
   ⟨abs_nonneg _, Real.abs_sin_le_one _⟩,
   ⟨abs_nonneg _, Real.abs_sin_le_one _⟩,
   ⟨abs_nonneg _, Real.abs_sin_le_one _⟩,
   ⟨abs_nonneg _, Real.abs_sin_le_one _⟩⟩

/-- Claim C8: `emg` has exactly 8 entries and entry `i` equals
`0.5 * sin(ts / (0.08 + i*0.01)) + (r_i - 0.5) * 0.2` where `r_i` is the
draw consumed for channel `i` (the `3+i`-th draw overall). -/
theorem claim_C8_emg (ts : ℝ) (draws : ℕ → ℝ) :
    (generate_sample ts draws).emg.length = 8 ∧
    ∀ i : ℕ, i < 8 →
      (generate_sample ts draws).emg[i]?
        = some (0.5 * Real.sin (ts / (0.08 + (i : ℝ) * 0.01))
                + (draws (3 + i) - 0.5) * 0.2) := by
  constructor
  · rw [emg_def]
    exact List.length_ofFn _
  · intro i hi
    rw [emg_def, List.getElem?_ofFn]
    simp [List.ofFnNthVal, hi]

/-- Witness for claim C8 at `ts = 0`, all draws `0`, channel `0`. -/
theorem claim_C8_emg_witness :
    (generate_sample 0 fun _ => 0).emg.length = 8 ∧
    (generate_sample 0 fun _ => 0).emg[0]?
      = some (0.5 * Real.sin ((0 : ℝ) / (0.08 + ((0 : ℕ) : ℝ) * 0.01))
              + ((0 : ℝ) - 0.5) * 0.2) :=
  ⟨(claim_C8_emg 0 fun _ => 0).1, (claim_C8_emg 0 fun _ => 0).2 0 (by norm_num)⟩

/-- Claim C9: for any timestamp and any first draw in `[0,1)`, the heart
rate lies in `[25, 105]`. -/
theorem claim_C9_heartRate_range (ts : ℝ) (draws : ℕ → ℝ)
    (h0 : 0 ≤ draws 0) (h1 : draws 0 < 1) :
    25 ≤ (generate_sample ts draws).heartRate ∧
    (generate_sample ts draws).heartRate ≤ 105 := by
  rw [heartRate_def]
  have hs1 := Real.sin_le_one (ts / 0.5)
  have hs2 := Real.neg_one_le_sin (ts / 0.5)
  have hA1 : pyInt (25 * Real.sin (ts / 0.5)) ≤ (25 : ℤ) :=
    pyInt_le (by push_cast; linarith)
  have hA2 : (-25 : ℤ) ≤ pyInt (25 * Real.sin (ts / 0.5)) :=
    le_pyInt (by push_cast; linarith)
  have hB1 : 0 ≤ pyInt (draws 0 * 5) := pyInt_nonneg (by positivity)
  have hB2 : pyInt (draws 0 * 5) < (5 : ℤ) :=
    pyInt_lt (by positivity) (by push_cast; linarith)
  omega

/-- Witness for claim C9 at `ts = 0`, all draws `0`. -/
theorem claim_C9_heartRate_range_witness :
    25 ≤ (generate_sample 0 fun _ => 0).heartRate ∧
    (generate_sample 0 fun _ => 0).heartRate ≤ 105 :=
  claim_C9_heartRate_range 0 (fun _ => 0) le_rfl (by norm_num)

/-- The emg list is never empty. -/
theorem emg_ne_nil (ts : ℝ) (draws : ℕ → ℝ) : (generate_sample ts draws).emg ≠ [] := by
  intro h
  have hlen := congrArg List.length h
  rw [emg_def] at hlen
  simp at hlen

/-- The default head of a nonempty list is a member of it. -/
theorem headI_mem_of_ne_nil {l : List ℝ} (h : l ≠ []) : l.headI ∈ l := by
  cases l with
  | nil => exact absurd rfl h
  | cons a t => simp [List.headI]

/-- Claim C10: with every draw in `[0,1)`, every emg channel value lies in
the half-open interval `[-0.6, 0.6)`. -/
theorem claim_C10_emg_range (ts : ℝ) (draws : ℕ → ℝ)
    (h : ∀ j, 0 ≤ draws j ∧ draws j < 1) :
    ∀ x ∈ (generate_sample ts draws).emg, -0.6 ≤ x ∧ x < 0.6 := by
  intro x hx
  rw [emg_def, List.mem_ofFn] at hx
  obtain ⟨i, hi⟩ := hx
  obtain ⟨hj0, hj1⟩ := h (3 + (i : ℕ))
  have hs1 := Real.sin_le_one (ts / (0.08 + (i : ℝ) * 0.01))
  have hs2 := Real.neg_one_le_sin (ts / (0.08 + (i : ℝ) * 0.01))
  rw [← hi]
  constructor <;> nlinarith

/-- Witness for claim C10 at `ts = 0`, all draws `0`, first channel. -/
theorem claim_C10_emg_range_witness :
    -0.6 ≤ (generate_sample 0 fun _ => 0).emg.headI ∧
    (generate_sample 0 fun _ => 0).emg.headI < 0.6 :=
  claim_C10_emg_range 0 (fun _ => 0) (fun _ => ⟨le_rfl, by norm_num⟩)
    _ (headI_mem_of_ne_nil (emg_ne_nil 0 fun _ => 0))

/-- Outcome of one iteration of the streaming loop body
(src/main.py lines 106-110): either every awaited step succeeded (`ok`),
the peer disconnected and `WebSocketDisconnect` was raised (`disconnect`),
or some other exception with description `msg` was raised (`err msg`). -/
inductive TickOutcome where
  | ok
  | disconnect
  | err (msg : String)
deriving DecidableEq

/-- Observable result of one run of the handler: the reasons passed to
`ws.close` (one entry per close attempt), and the error the handler let
propagate to its caller, if any. -/
structure HandlerRun where
  closeAttempts : List String
  propagated : Option String
deriving DecidableEq

/-- Result of `await ws.close(code=1011, reason=...)` in src/main.py
line 115: the close call itself may raise. -/
def closeOutcome (closeRaises : Bool) : Except String Unit :=
  if closeRaises then Except.error "close failed" else Except.ok ()

/-- `websocket_telemetry` from src/main.py lines 101-117, driven by the
finite trace `ticks` of loop-body outcomes (`none` means the trace ended
with the loop still running).  `ok` continues the `while True` loop;
`disconnect` is caught by `except WebSocketDisconnect: return`; any other
error is caught by `except Exception as e`, which attempts one
`ws.close(..., reason=str(e))` inside a `try`/`except Exception: pass`
that swallows whatever the close raises. -/
def websocket_telemetry (closeRaises : Bool) : List TickOutcome → Option HandlerRun
  | [] => none
  | TickOutcome.ok :: rest => websocket_telemetry closeRaises rest
  | TickOutcome.disconnect :: _ => some ⟨[], none⟩
  | TickOutcome.err msg :: _ =>
      match closeOutcome closeRaises with
      | Except.ok _ => some ⟨[msg], none⟩
      | Except.error _ => some ⟨[msg], none⟩

/-- Claim C3: after any number of successful ticks, termination by peer
disconnect surfaces no error and attempts no close; termination by any
other error attempts exactly one close carrying that error's description,
suppresses a failure of the close attempt (the result is the same whether
or not the close raises), and propagates nothing. -/
theorem claim_C3_handler_termination (closeRaises : Bool) (n : ℕ) (msg : String) :
    websocket_telemetry closeRaises
        (List.replicate n TickOutcome.ok ++ [TickOutcome.disconnect])
      = some ⟨[], none⟩ ∧
    websocket_telemetry closeRaises
        (List.replicate n TickOutcome.ok ++ [TickOutcome.err msg])
      = some ⟨[msg], none⟩ := by
  induction n with
  | zero =>
      constructor <;> · cases closeRaises <;> rfl
  | succ k ih =>
      simpa [List.replicate_succ, websocket_telemetry] using ih

end Backend
